import Mathlib

/-!
Shallow embedding of the persistence layer in `src/src-tauri/src/lib.rs`
(visionboard): canvas CRUD with migration-on-read, the tree store, and the
image store.

Modelling conventions:
* The storage directory is a value of type `FS`: the canvases directory is an
  association list from canvas id to the JSON content of `<id>.json`, the
  images directory maps generated filenames to byte lists, and `tree` is the
  optional content of `tree.json` (`none` = file absent).
* JSON documents are values of the inductive `Json`; JSON numbers are
  rationals (the documents here only carry numbers for which binary floating
  point is exact, and the code performs no arithmetic on them).
* `serde` serialization/deserialization of the Rust structs is embedded as
  `canvasToJson`/`parseCanvas` etc., with serde's behaviour for `Option`
  fields (a missing key parses as `none`, `null` parses as `none`).
* The effects `chrono::Utc::now().to_rfc3339()` and `Uuid::new_v4()` are
  passed in as explicit string parameters, one per call site in the source
  (`create_canvas` calls `now()` twice, once for `created` and once for
  `modified`, so it takes two timestamp parameters).
* `fs::write` and directory creation are modelled as always succeeding
  (I/O failures are out of scope); error strings keep the fixed text of the
  source and drop the formatted suffix of the underlying error.
-/

namespace VisionBoard

/-- JSON values, embedding `serde_json::Value`. Objects are association
lists of fields in serialization order. -/
inductive Json where
  | null
  | bool (b : Bool)
  | num (q : Rat)
  | str (s : String)
  | arr (elems : List Json)
  | obj (fields : List (String × Json))

/-- Embeds the Rust struct `ViewBox { x, y, width, height : f64 }`. -/
structure ViewBox where
  x : Rat
  y : Rat
  width : Rat
  height : Rat
deriving DecidableEq

/-- Embeds the Rust struct `Canvas`; field order matches the declaration
order in the source, hence serde's serialization order. -/
structure Canvas where
  version : String
  id : String
  name : String
  parentId : Option String
  created : String
  modified : String
  viewBox : ViewBox
  elements : Json

/-- Embeds the Rust struct `TreeNode`. -/
structure TreeNode where
  name : String
  children : List String
  parent : Option String
deriving DecidableEq

/-- Embeds the Rust struct `TreeStructure`; the `HashMap<String, TreeNode>`
is modelled as an association list with the map's key-value pairs. -/
structure TreeStructure where
  rootCanvases : List String
  canvases : List (String × TreeNode)
deriving DecidableEq

/-- Embeds the Rust struct `UploadedFile`. -/
structure UploadedFile where
  filename : String
  originalName : String
  size : Nat
  path : String
deriving DecidableEq

/-- Lookup in an association list keyed by strings (a directory listing or
a JSON object's fields). -/
def lookupKey {α : Type} : List (String × α) → String → Option α
  | [], _ => none
  | p :: rest, key => if p.1 = key then some p.2 else lookupKey rest key

/-- Remove every entry with the given key. -/
def eraseKey {α : Type} : List (String × α) → String → List (String × α)
  | [], _ => []
  | p :: rest, key => if p.1 = key then eraseKey rest key else p :: eraseKey rest key

/-- Overwrite (or create) the entry for a key: the semantics of
`fs::write` into a directory listing. -/
def setKey {α : Type} (l : List (String × α)) (key : String) (v : α) :
    List (String × α) :=
  (key, v) :: eraseKey l key

/-- The storage directory state. -/
structure FS where
  canvases : List (String × Json)
  images : List (String × List Nat)
  tree : Option Json

/-- A fresh storage root: no canvas files, no images, no tree file. -/
def FS.empty : FS := ⟨[], [], none⟩

/-! ### serde serialization of the document types -/

/-- serde serializes `Option<String>` as `null` or a string. -/
def optStrToJson : Option String → Json
  | none => Json.null
  | some s => Json.str s

def viewBoxToJson (v : ViewBox) : Json :=
  Json.obj [("x", Json.num v.x), ("y", Json.num v.y),
            ("width", Json.num v.width), ("height", Json.num v.height)]

/-- `serde_json::to_string_pretty(&canvas)`, at the level of JSON values;
the keys `parentId` and `viewBox` carry the serde rename attributes. -/
def canvasToJson (c : Canvas) : Json :=
  Json.obj [("version", Json.str c.version), ("id", Json.str c.id),
            ("name", Json.str c.name), ("parentId", optStrToJson c.parentId),
            ("created", Json.str c.created), ("modified", Json.str c.modified),
            ("viewBox", viewBoxToJson c.viewBox), ("elements", c.elements)]

def treeNodeToJson (n : TreeNode) : Json :=
  Json.obj [("name", Json.str n.name),
            ("children", Json.arr (n.children.map Json.str)),
            ("parent", optStrToJson n.parent)]

def treeToJson (t : TreeStructure) : Json :=
  Json.obj [("rootCanvases", Json.arr (t.rootCanvases.map Json.str)),
            ("canvases", Json.obj (t.canvases.map fun p => (p.1, treeNodeToJson p.2)))]

/-! ### serde deserialization -/

/-- serde's handling of an `Option<String>` field: missing key or `null`
parse as `None`, a string parses as `Some`, anything else is an error. -/
def parseOptField : Option Json → Option (Option String)
  | none => some none
  | some Json.null => some none
  | some (Json.str s) => some (some s)
  | some _ => none

def parseViewBox : Json → Option ViewBox
  | Json.obj fields =>
      match lookupKey fields "x", lookupKey fields "y",
            lookupKey fields "width", lookupKey fields "height" with
      | some (Json.num x), some (Json.num y),
        some (Json.num w), some (Json.num h) => some ⟨x, y, w, h⟩
      | _, _, _, _ => none
  | _ => none

/-- `serde_json::from_str::<Canvas>` / `from_value::<Canvas>`: every
non-`Option` field must be present with the right shape; unknown fields are
ignored (serde's default). -/
def parseCanvas : Json → Option Canvas
  | Json.obj fields =>
      match lookupKey fields "version", lookupKey fields "id",
            lookupKey fields "name", lookupKey fields "created",
            lookupKey fields "modified" with
      | some (Json.str ver), some (Json.str idv), some (Json.str nm),
        some (Json.str cr), some (Json.str mo) =>
          match parseOptField (lookupKey fields "parentId"),
                (lookupKey fields "viewBox").bind parseViewBox,
                lookupKey fields "elements" with
          | some pid, some vb, some el => some ⟨ver, idv, nm, pid, cr, mo, vb, el⟩
          | _, _, _ => none
      | _, _, _, _, _ => none
  | _ => none

/-- Parse a JSON array of strings (`Vec<String>`). -/
def parseStrList : List Json → Option (List String)
  | [] => some []
  | Json.str s :: rest =>
      match parseStrList rest with
      | some r => some (s :: r)
      | none => none
  | _ => none

def parseTreeNode : Json → Option TreeNode
  | Json.obj fields =>
      match lookupKey fields "name", lookupKey fields "children" with
      | some (Json.str nm), some (Json.arr cs) =>
          match parseStrList cs, parseOptField (lookupKey fields "parent") with
          | some children, some parent => some ⟨nm, children, parent⟩
          | _, _ => none
      | _, _ => none
  | _ => none

/-- Parse a JSON object as a `HashMap<String, TreeNode>`. -/
def parseNodeMap : List (String × Json) → Option (List (String × TreeNode))
  | [] => some []
  | (k, v) :: rest =>
      match parseTreeNode v, parseNodeMap rest with
      | some n, some r => some ((k, n) :: r)
      | _, _ => none

def parseTree : Json → Option TreeStructure
  | Json.obj fields =>
      match lookupKey fields "rootCanvases", lookupKey fields "canvases" with
      | some (Json.arr roots), some (Json.obj cs) =>
          match parseStrList roots, parseNodeMap cs with
          | some r, some m => some ⟨r, m⟩
          | _, _ => none
      | _, _ => none
  | _ => none

/-! ### Round-trip lemmas: parsing a document the store serialized returns
the original value. -/

theorem parseCanvas_canvasToJson (c : Canvas) :
    parseCanvas (canvasToJson c) = some c := by
  obtain ⟨ver, idv, nm, pid, cr, mo, vb, el⟩ := c
  cases pid <;> rfl

theorem parseStrList_map_str (l : List String) :
    parseStrList (l.map Json.str) = some l := by
  induction l with
  | nil => rfl
  | cons h t ih => simp [parseStrList, ih]

theorem parseTreeNode_treeNodeToJson (n : TreeNode) :
    parseTreeNode (treeNodeToJson n) = some n := by
  obtain ⟨nm, cs, pa⟩ := n
  cases pa <;>
    simp [treeNodeToJson, parseTreeNode, lookupKey, parseStrList_map_str,
      parseOptField, optStrToJson]

theorem parseNodeMap_map (l : List (String × TreeNode)) :
    parseNodeMap (l.map fun p => (p.1, treeNodeToJson p.2)) = some l := by
  induction l with
  | nil => rfl
  | cons h t ih => simp [parseNodeMap, parseTreeNode_treeNodeToJson, ih]

theorem parseTree_treeToJson (t : TreeStructure) :
    parseTree (treeToJson t) = some t := by
  obtain ⟨roots, cs⟩ := t
  simp [treeToJson, parseTree, lookupKey, parseStrList_map_str, parseNodeMap_map]

/-! ### Association-list lemmas -/

theorem lookupKey_setKey_self {α : Type} (l : List (String × α)) (k : String) (v : α) :
    lookupKey (setKey l k v) k = some v := by
  simp [setKey, lookupKey]

theorem lookupKey_eraseKey_self {α : Type} (l : List (String × α)) (k : String) :
    lookupKey (eraseKey l k) k = none := by
  induction l with
  | nil => rfl
  | cons p rest ih =>
      by_cases h : p.1 = k
      · simpa [eraseKey, h] using ih
      · simp [eraseKey, lookupKey, h, ih]

/-! ### The Tauri commands (`#[tauri::command]` functions of the source) -/

/-- The migration block of `get_canvas` (source lines 105–107): assign the
schema version and stamp `modified` with the current time. -/
def migrate (c : Canvas) (now : String) : Canvas :=
  { c with version := "1.0.0", modified := now }

/-- The field mutations of `update_canvas` (source lines 158–161):
overwrite `modified` with the current time and fill an empty `version`. -/
def applyUpdate (c : Canvas) (now : String) : Canvas :=
  { c with modified := now
           version := if c.version = "" then "1.0.0" else c.version }

/-- `fs::write` of a serialized canvas to `<canvases>/<id>.json`. -/
def FS.setCanvas (fs : FS) (id : String) (j : Json) : FS :=
  { fs with canvases := setKey fs.canvases id j }

/-- `get_canvas(app, id)`: read `<canvases>/<id>.json` (`Canvas not found`
when absent), parse it, and if `version` is empty migrate in place: set
`version = "1.0.0"`, `modified = now`, and write the document back. `now`
stands for the single `chrono::Utc::now().to_rfc3339()` call. -/
def get_canvas (fs : FS) (id : String) (now : String) :
    Except String (Canvas × FS) :=
  match lookupKey fs.canvases id with
  | none => Except.error "Canvas not found"
  | some content =>
      match parseCanvas content with
      | none => Except.error "Failed to parse canvas"
      | some canvas =>
          if canvas.version = "" then
            Except.ok (migrate canvas now,
              fs.setCanvas id (canvasToJson (migrate canvas now)))
          else
            Except.ok (canvas, fs)

/-- `create_canvas(app, name, parent_id)`: build a fresh document with
version "1.0.0", a fresh `Uuid::new_v4()` id (parameter `newId`), the name
defaulted to "New Canvas", the default viewBox, empty `elements`, and the
two separate `Utc::now()` readings `nowCreated` (line 128) and
`nowModified` (line 129); write it to `<canvases>/<newId>.json`. -/
def create_canvas (fs : FS) (name : Option String) (parent_id : Option String)
    (newId : String) (nowCreated : String) (nowModified : String) :
    Canvas × FS :=
  let canvas : Canvas :=
    { version := "1.0.0"
      id := newId
      name := name.getD "New Canvas"
      parentId := parent_id
      created := nowCreated
      modified := nowModified
      viewBox := { x := 0, y := 0, width := 1920, height := 1080 }
      elements := Json.arr [] }
  (canvas, fs.setCanvas newId (canvasToJson canvas))

/-- `update_canvas(app, id, canvas_data)`: parse the caller-supplied body as
a full `Canvas`, overwrite `modified` with now, fill `version` with
"1.0.0" if empty, and write to `<canvases>/<id>.json` — the path comes from
the `id` parameter, never from the body. No existence check precedes the
write. -/
def update_canvas (fs : FS) (id : String) (canvas_data : Json) (now : String) :
    Except String (Canvas × FS) :=
  match parseCanvas canvas_data with
  | none => Except.error "Failed to parse canvas data"
  | some c =>
      Except.ok (applyUpdate c now,
        fs.setCanvas id (canvasToJson (applyUpdate c now)))

/-- `delete_canvas(app, id)`: `fs::remove_file` on `<canvases>/<id>.json`,
mapping failure (the file being absent) to `Canvas not found`; returns
`true` on success. -/
def delete_canvas (fs : FS) (id : String) : Except String (Bool × FS) :=
  match lookupKey fs.canvases id with
  | some _ => Except.ok (true, { fs with canvases := eraseKey fs.canvases id })
  | none => Except.error "Canvas not found"

/-- The default tree written by `get_tree` on a fresh storage root. -/
def defaultTree : TreeStructure :=
  { rootCanvases := ["main"]
    canvases := [("main", { name := "Main Canvas", children := [], parent := none })] }

/-- `get_tree(app)`: if `tree.json` is absent, write the default structure
and return it; otherwise read and parse the file. -/
def get_tree (fs : FS) : Except String (TreeStructure × FS) :=
  match fs.tree with
  | none =>
      Except.ok (defaultTree, { fs with tree := some (treeToJson defaultTree) })
  | some content =>
      match parseTree content with
      | some t => Except.ok (t, fs)
      | none => Except.error "Failed to parse tree"

/-- `update_tree(app, tree_data)`: serialize the caller-supplied structure,
overwrite `tree.json` with it, and return it. -/
def update_tree (fs : FS) (tree_data : TreeStructure) : TreeStructure × FS :=
  (tree_data, { fs with tree := some (treeToJson tree_data) })

/-- Split a character list at every occurrence of a separator; the
single-character case of `str::split`. Always returns a non-empty list. -/
def splitChars (sep : Char) : List Char → List (List Char)
  | [] => [[]]
  | c :: rest =>
      match splitChars sep rest with
      | [] => [[c]]
      | h :: t => if c = sep then [] :: h :: t else (c :: h) :: t

/-- `std::path::Path::file_name` on Unix: the last component after dropping
empty and `.` components, and `none` when that component is `..` or the
path has no component. -/
def fileNameOf (s : String) : Option (List Char) :=
  match ((splitChars (Char.ofNat 47) s.toList).filter
      fun c => !(c.isEmpty || c == [Char.ofNat 46])).getLast? with
  | none => none
  | some c =>
      if c = [Char.ofNat 46, Char.ofNat 46] then none else some c

/-- `std::path::Path::extension`: the portion of the file name after the
last dot, unless there is no dot or the name begins with its only dot
(a hidden file such as ".gitignore" has no extension). -/
def extensionOf (s : String) : Option String :=
  match fileNameOf s with
  | none => none
  | some nm =>
      match splitChars (Char.ofNat 46) nm with
      | [] => none
      | [_] => none
      | [[], _] => none
      | ps => (ps.getLast?).map String.mk

/-- `save_image(app, filename, data)`: extract the extension of the
original filename (default "png"), build `<newBase>.<ext>` from a fresh
`Uuid::new_v4()` base name (parameter `newBase`), write the bytes under the
images directory, and return the `UploadedFile` record. -/
def save_image (fs : FS) (filename : String) (data : List Nat) (newBase : String) :
    UploadedFile × FS :=
  let ext := (extensionOf filename).getD "png"
  let new_filename := newBase ++ "." ++ ext
  ({ filename := new_filename
     originalName := filename
     size := data.length
     path := "/api/images/" ++ new_filename },
   { fs with images := setKey fs.images new_filename data })

/-- Inversion for a successful `get_canvas`: the file existed, parsed, and
the result is either the migrated document (empty stored version) or the
stored document unchanged. -/
theorem get_canvas_ok_elim {fs : FS} {id now : String} {c : Canvas} {fs' : FS}
    (h : get_canvas fs id now = Except.ok (c, fs')) :
    ∃ j c0, lookupKey fs.canvases id = some j ∧ parseCanvas j = some c0 ∧
      ((c0.version = "" ∧ c = migrate c0 now ∧
          fs' = fs.setCanvas id (canvasToJson (migrate c0 now))) ∨
        (¬ c0.version = "" ∧ c = c0 ∧ fs' = fs)) := by
  unfold get_canvas at h
  split at h
  · exact absurd h (by simp)
  next j hfile =>
    split at h
    · exact absurd h (by simp)
    next c0 hparse =>
      split at h
      next hver =>
        simp only [Except.ok.injEq, Prod.mk.injEq] at h
        exact ⟨j, c0, hfile, hparse, Or.inl ⟨hver, h.1.symm, h.2.symm⟩⟩
      next hver =>
        simp only [Except.ok.injEq, Prod.mk.injEq] at h
        exact ⟨j, c0, hfile, hparse, Or.inr ⟨hver, h.1.symm, h.2.symm⟩⟩

/-- Inversion for a successful `update_canvas`: the body parsed, and the
result is the updated document written at the path for `id`. -/
theorem update_canvas_ok_elim {fs : FS} {id : String} {body : Json}
    {now : String} {c : Canvas} {fs' : FS}
    (h : update_canvas fs id body now = Except.ok (c, fs')) :
    ∃ c0, parseCanvas body = some c0 ∧ c = applyUpdate c0 now ∧
      fs' = fs.setCanvas id (canvasToJson (applyUpdate c0 now)) := by
  unfold update_canvas at h
  split at h
  · exact absurd h (by simp)
  next c0 hparse =>
    simp only [Except.ok.injEq, Prod.mk.injEq] at h
    exact ⟨c0, hparse, h.1.symm, h.2.symm⟩

/-- The `version` produced by the update mutations is never empty. -/
theorem applyUpdate_version_ne {c : Canvas} {now : String} :
    ¬ (applyUpdate c now).version = "" := by
  by_cases hver : c.version = "" <;> simp [applyUpdate, hver]

/-! ### Claim theorems -/

/-- C1: migration-on-read is idempotent. If the canvases directory holds a
document for `id` that parses to a canvas with empty `version`, the first
`get_canvas` returns that canvas with `version = "1.0.0"` and `modified`
set to the current time and persists the corrected document to disk, and a
second `get_canvas` on the resulting store leaves the store unchanged and
returns the same document. -/
theorem migration_on_read_idempotent (fs : FS) (id nowA nowB : String)
    (j : Json) (c : Canvas)
    (hfile : lookupKey fs.canvases id = some j)
    (hparse : parseCanvas j = some c)
    (hver : c.version = "") :
    get_canvas fs id nowA =
      Except.ok (migrate c nowA, fs.setCanvas id (canvasToJson (migrate c nowA))) ∧
    (migrate c nowA).version = "1.0.0" ∧
    (migrate c nowA).modified = nowA ∧
    lookupKey (fs.setCanvas id (canvasToJson (migrate c nowA))).canvases id =
      some (canvasToJson (migrate c nowA)) ∧
    get_canvas (fs.setCanvas id (canvasToJson (migrate c nowA))) id nowB =
      Except.ok (migrate c nowA, fs.setCanvas id (canvasToJson (migrate c nowA))) := by
  refine ⟨?_, rfl, rfl, lookupKey_setKey_self _ _ _, ?_⟩
  · simp [get_canvas, hfile, hparse, hver, migrate, FS.setCanvas]
  · simp [get_canvas, FS.setCanvas, lookupKey_setKey_self,
      parseCanvas_canvasToJson, migrate]

/-- C1 witness: a concrete legacy document (empty version) under id
"legacy" satisfies the hypotheses of the idempotence theorem. -/
theorem migration_on_read_idempotent_witness :
    lookupKey (FS.mk [("legacy", canvasToJson ⟨"", "legacy", "Old", none, "t0",
        "t0", ⟨0, 0, 1920, 1080⟩, Json.arr []⟩)] [] none).canvases "legacy" =
      some (canvasToJson ⟨"", "legacy", "Old", none, "t0", "t0",
        ⟨0, 0, 1920, 1080⟩, Json.arr []⟩) ∧
    parseCanvas (canvasToJson ⟨"", "legacy", "Old", none, "t0", "t0",
        ⟨0, 0, 1920, 1080⟩, Json.arr []⟩) =
      some ⟨"", "legacy", "Old", none, "t0", "t0", ⟨0, 0, 1920, 1080⟩, Json.arr []⟩ ∧
    get_canvas (FS.mk [("legacy", canvasToJson ⟨"", "legacy", "Old", none, "t0",
        "t0", ⟨0, 0, 1920, 1080⟩, Json.arr []⟩)] [] none) "legacy" "t1" =
      Except.ok (⟨"1.0.0", "legacy", "Old", none, "t0", "t1",
          ⟨0, 0, 1920, 1080⟩, Json.arr []⟩,
        (FS.mk [("legacy", canvasToJson ⟨"", "legacy", "Old", none, "t0", "t0",
            ⟨0, 0, 1920, 1080⟩, Json.arr []⟩)] [] none).setCanvas "legacy"
          (canvasToJson ⟨"1.0.0", "legacy", "Old", none, "t0", "t1",
            ⟨0, 0, 1920, 1080⟩, Json.arr []⟩)) := by
  refine ⟨rfl, rfl, ?_⟩
  exact (migration_on_read_idempotent
    (FS.mk [("legacy", canvasToJson ⟨"", "legacy", "Old", none, "t0", "t0",
      ⟨0, 0, 1920, 1080⟩, Json.arr []⟩)] [] none)
    "legacy" "t1" "t2" _ _ rfl rfl rfl).1

/-- C2: after every successful canvas-store operation the `version` of the
returned document is non-empty, and the document left on disk at the
operated id parses to a canvas with non-empty `version`: `create_canvas`
writes "1.0.0", `get_canvas` migrates an empty version to "1.0.0", and
`update_canvas` fills an empty version with "1.0.0" before persisting. -/
theorem version_nonempty_invariant :
    (∀ (fs : FS) (id now : String) (c : Canvas) (fs' : FS),
      get_canvas fs id now = Except.ok (c, fs') →
      ¬ c.version = "" ∧ ∃ j d, lookupKey fs'.canvases id = some j ∧
        parseCanvas j = some d ∧ ¬ d.version = "") ∧
    (∀ (fs : FS) (name parent_id : Option String) (newId t1 t2 : String),
      ¬ (create_canvas fs name parent_id newId t1 t2).1.version = "" ∧
      ∃ j d,
        lookupKey (create_canvas fs name parent_id newId t1 t2).2.canvases newId
          = some j ∧ parseCanvas j = some d ∧ ¬ d.version = "") ∧
    (∀ (fs : FS) (id : String) (body : Json) (now : String) (c : Canvas) (fs' : FS),
      update_canvas fs id body now = Except.ok (c, fs') →
      ¬ c.version = "" ∧ ∃ j d, lookupKey fs'.canvases id = some j ∧
        parseCanvas j = some d ∧ ¬ d.version = "") := by
  refine ⟨?_, ?_, ?_⟩
  · intro fs id now c fs' h
    obtain ⟨j, c0, hfile, hparse, hrest⟩ := get_canvas_ok_elim h
    rcases hrest with ⟨hver, hc, hfs⟩ | ⟨hver, hc, hfs⟩
    · subst hc; subst hfs
      refine ⟨by simp [migrate], canvasToJson (migrate c0 now), migrate c0 now,
        ?_, parseCanvas_canvasToJson _, by simp [migrate]⟩
      simp [FS.setCanvas, lookupKey_setKey_self]
    · subst hc; subst hfs
      exact ⟨hver, j, _, hfile, hparse, hver⟩
  · intro fs name parent_id newId t1 t2
    refine ⟨by simp [create_canvas], ?_⟩
    refine ⟨_, (create_canvas fs name parent_id newId t1 t2).1,
      ?_, parseCanvas_canvasToJson _, by simp [create_canvas]⟩
    simp [create_canvas, FS.setCanvas, lookupKey_setKey_self]
  · intro fs id body now c fs' h
    obtain ⟨c0, hparse, hc, hfs⟩ := update_canvas_ok_elim h
    subst hc; subst hfs
    refine ⟨applyUpdate_version_ne, canvasToJson (applyUpdate c0 now),
      applyUpdate c0 now, ?_, parseCanvas_canvasToJson _, applyUpdate_version_ne⟩
    simp [FS.setCanvas, lookupKey_setKey_self]

/-- C2 witness: the invariant instantiated at a concrete read of a
non-legacy document, a concrete creation, and a concrete update whose body
carries an empty version. -/
theorem version_nonempty_invariant_witness :
    (¬ (⟨"2.0.0", "a", "Doc", none, "t0", "t0", ⟨0, 0, 1920, 1080⟩,
        Json.arr []⟩ : Canvas).version = "" ∧
      ∃ j d,
        lookupKey (FS.mk [("a", canvasToJson ⟨"2.0.0", "a", "Doc", none, "t0",
          "t0", ⟨0, 0, 1920, 1080⟩, Json.arr []⟩)] [] none).canvases "a" = some j ∧
        parseCanvas j = some d ∧ ¬ d.version = "") ∧
    (¬ (create_canvas FS.empty none none "id0" "t1" "t2").1.version = "" ∧
      ∃ j d,
        lookupKey (create_canvas FS.empty none none "id0" "t1" "t2").2.canvases "id0"
          = some j ∧ parseCanvas j = some d ∧ ¬ d.version = "") ∧
    (¬ (applyUpdate ⟨"", "b", "Doc", none, "t0", "t0", ⟨0, 0, 1920, 1080⟩,
        Json.arr []⟩ "t3").version = "" ∧
      ∃ j d,
        lookupKey (FS.empty.setCanvas "b" (canvasToJson (applyUpdate ⟨"", "b",
          "Doc", none, "t0", "t0", ⟨0, 0, 1920, 1080⟩, Json.arr []⟩
          "t3"))).canvases "b" = some j ∧
        parseCanvas j = some d ∧ ¬ d.version = "") := by
  refine ⟨?_, ?_, ?_⟩
  · exact version_nonempty_invariant.1
      (FS.mk [("a", canvasToJson ⟨"2.0.0", "a", "Doc", none, "t0", "t0",
        ⟨0, 0, 1920, 1080⟩, Json.arr []⟩)] [] none) "a" "t1" _ _ rfl
  · exact version_nonempty_invariant.2.1 FS.empty none none "id0" "t1" "t2"
  · exact version_nonempty_invariant.2.2 FS.empty "b"
      (canvasToJson ⟨"", "b", "Doc", none, "t0", "t0", ⟨0, 0, 1920, 1080⟩,
        Json.arr []⟩) "t3" _ _ rfl

/-- C3: for every creation input, `create_canvas` followed by `get_canvas`
with the returned id succeeds and returns exactly the created document and
an unchanged store (so its `version`, `name`, `parentId`, `viewBox`,
`elements` and in particular its `modified` timestamp coincide with the
created document's — "not earlier" holds as equality); the created document
has version "1.0.0", the name defaulted to "New Canvas" when omitted, the
default viewBox `{0,0,1920,1080}` and empty `elements`. -/
theorem create_then_get (fs : FS) (name parent_id : Option String)
    (newId t1 t2 t3 : String) :
    get_canvas (create_canvas fs name parent_id newId t1 t2).2
        (create_canvas fs name parent_id newId t1 t2).1.id t3 =
      Except.ok ((create_canvas fs name parent_id newId t1 t2).1,
        (create_canvas fs name parent_id newId t1 t2).2) ∧
    (create_canvas fs name parent_id newId t1 t2).1.version = "1.0.0" ∧
    (create_canvas fs name parent_id newId t1 t2).1.id = newId ∧
    (create_canvas fs name parent_id newId t1 t2).1.name =
      name.getD "New Canvas" ∧
    (create_canvas fs name parent_id newId t1 t2).1.parentId = parent_id ∧
    (create_canvas fs name parent_id newId t1 t2).1.viewBox = ⟨0, 0, 1920, 1080⟩ ∧
    (create_canvas fs name parent_id newId t1 t2).1.elements = Json.arr [] ∧
    (create_canvas fs name parent_id newId t1 t2).1.modified = t2 := by
  refine ⟨?_, rfl, rfl, rfl, rfl, rfl, rfl, rfl⟩
  simp [create_canvas, get_canvas, FS.setCanvas, lookupKey_setKey_self,
    parseCanvas_canvasToJson]

/-- C4: `update_canvas` parses the caller-supplied body, overwrites
`modified` with the current time, fills an empty `version` with "1.0.0",
and stores the result at the path derived from the `id` parameter — not
from the body's embedded id — leaving every other field as supplied, so a
body whose embedded id differs from the path id produces a file whose key
and internal `id` diverge. -/
theorem update_canvas_stores_at_path_id (fs : FS) (id : String) (body : Json)
    (now : String) (c : Canvas) (h : parseCanvas body = some c) :
    update_canvas fs id body now =
      Except.ok (applyUpdate c now,
        fs.setCanvas id (canvasToJson (applyUpdate c now))) ∧
    lookupKey (fs.setCanvas id (canvasToJson (applyUpdate c now))).canvases id =
      some (canvasToJson (applyUpdate c now)) ∧
    (applyUpdate c now).modified = now ∧
    (applyUpdate c now).version =
      (if c.version = "" then "1.0.0" else c.version) ∧
    (applyUpdate c now).id = c.id ∧
    (applyUpdate c now).name = c.name ∧
    (applyUpdate c now).parentId = c.parentId ∧
    (applyUpdate c now).created = c.created ∧
    (applyUpdate c now).viewBox = c.viewBox ∧
    (applyUpdate c now).elements = c.elements := by
  refine ⟨?_, lookupKey_setKey_self _ _ _, rfl, rfl, rfl, rfl, rfl, rfl, rfl, rfl⟩
  simp [update_canvas, h]

/-- C4 witness: a concrete body whose embedded id "bodyid" differs from the
path id "pathid"; the stored file sits under "pathid" while its internal
id stays "bodyid". -/
theorem update_canvas_stores_at_path_id_witness :
    ¬ "pathid" = "bodyid" ∧
    (applyUpdate (⟨"", "bodyid", "Doc", none, "t0", "t0", ⟨0, 0, 1920, 1080⟩,
      Json.arr []⟩ : Canvas) "t1").id = "bodyid" ∧
    (update_canvas FS.empty "pathid"
        (canvasToJson ⟨"", "bodyid", "Doc", none, "t0", "t0",
          ⟨0, 0, 1920, 1080⟩, Json.arr []⟩) "t1" =
      Except.ok (applyUpdate ⟨"", "bodyid", "Doc", none, "t0", "t0",
          ⟨0, 0, 1920, 1080⟩, Json.arr []⟩ "t1",
        FS.empty.setCanvas "pathid"
          (canvasToJson (applyUpdate ⟨"", "bodyid", "Doc", none, "t0", "t0",
            ⟨0, 0, 1920, 1080⟩, Json.arr []⟩ "t1"))) ∧
      lookupKey (FS.empty.setCanvas "pathid"
          (canvasToJson (applyUpdate ⟨"", "bodyid", "Doc", none, "t0", "t0",
            ⟨0, 0, 1920, 1080⟩, Json.arr []⟩ "t1"))).canvases "pathid" =
        some (canvasToJson (applyUpdate ⟨"", "bodyid", "Doc", none, "t0", "t0",
          ⟨0, 0, 1920, 1080⟩, Json.arr []⟩ "t1")) ∧
      (applyUpdate (⟨"", "bodyid", "Doc", none, "t0", "t0", ⟨0, 0, 1920, 1080⟩,
        Json.arr []⟩ : Canvas) "t1").modified = "t1" ∧
      (applyUpdate (⟨"", "bodyid", "Doc", none, "t0", "t0", ⟨0, 0, 1920, 1080⟩,
          Json.arr []⟩ : Canvas) "t1").version =
        (if ("" : String) = "" then "1.0.0" else "") ∧
      (applyUpdate (⟨"", "bodyid", "Doc", none, "t0", "t0", ⟨0, 0, 1920, 1080⟩,
        Json.arr []⟩ : Canvas) "t1").id = "bodyid" ∧
      (applyUpdate (⟨"", "bodyid", "Doc", none, "t0", "t0", ⟨0, 0, 1920, 1080⟩,
        Json.arr []⟩ : Canvas) "t1").name = "Doc" ∧
      (applyUpdate (⟨"", "bodyid", "Doc", none, "t0", "t0", ⟨0, 0, 1920, 1080⟩,
        Json.arr []⟩ : Canvas) "t1").parentId = none ∧
      (applyUpdate (⟨"", "bodyid", "Doc", none, "t0", "t0", ⟨0, 0, 1920, 1080⟩,
        Json.arr []⟩ : Canvas) "t1").created = "t0" ∧
      (applyUpdate (⟨"", "bodyid", "Doc", none, "t0", "t0", ⟨0, 0, 1920, 1080⟩,
        Json.arr []⟩ : Canvas) "t1").viewBox = ⟨0, 0, 1920, 1080⟩ ∧
      (applyUpdate (⟨"", "bodyid", "Doc", none, "t0", "t0", ⟨0, 0, 1920, 1080⟩,
        Json.arr []⟩ : Canvas) "t1").elements = Json.arr []) := by
  refine ⟨by decide, rfl, ?_⟩
  exact update_canvas_stores_at_path_id FS.empty "pathid"
    (canvasToJson ⟨"", "bodyid", "Doc", none, "t0", "t0", ⟨0, 0, 1920, 1080⟩,
      Json.arr []⟩) "t1" _ rfl

/-- C9 (amended): `create_canvas` populates `created` and `modified` from
two consecutive `Utc::now()` readings taken during create (source lines
128–129) — `created` from the first and `modified` from the second — so the
two fields are equal whenever the two readings coincide, but may differ
when the clock advances between the calls. -/
theorem create_timestamps (fs : FS) (name parent_id : Option String)
    (newId t1 t2 : String) :
    (create_canvas fs name parent_id newId t1 t2).1.created = t1 ∧
    (create_canvas fs name parent_id newId t1 t2).1.modified = t2 ∧
    (t1 = t2 →
      (create_canvas fs name parent_id newId t1 t2).1.created =
        (create_canvas fs name parent_id newId t1 t2).1.modified) := by
  exact ⟨rfl, rfl, fun h => h⟩

/-- C9 witness: with coinciding clock readings the created document has
equal `created` and `modified`. -/
theorem create_timestamps_witness :
    (create_canvas FS.empty none none "id0" "t" "t").1.created =
      (create_canvas FS.empty none none "id0" "t" "t").1.modified :=
  (create_timestamps FS.empty none none "id0" "t" "t").2.2 rfl

/-- C9 counterexample: `create_canvas` takes its two timestamps from two
separate `Utc::now()` calls; in a run where the clock advances between
them (here by one nanosecond of the RFC3339 reading) the created document
has `created ≠ modified`, refuting the claim that they are always equal. -/
theorem create_timestamps_counterexample :
    ¬ (create_canvas FS.empty none none "id0" "2024-01-01T00:00:00+00:00"
        "2024-01-01T00:00:00.000000001+00:00").1.created =
      (create_canvas FS.empty none none "id0" "2024-01-01T00:00:00+00:00"
        "2024-01-01T00:00:00.000000001+00:00").1.modified := by
  decide

/-- C10: `update_canvas` never fails with NotFound: for every store and
every id — including one with no canvas file — an update with a
well-formed body succeeds and creates or overwrites the file at the path
derived from the id (upsert semantics, no existence check before the
write). -/
theorem update_canvas_upsert (fs : FS) (id : String) (body : Json)
    (now : String) (c : Canvas) (h : parseCanvas body = some c) :
    ∃ c' fs', update_canvas fs id body now = Except.ok (c', fs') ∧
      lookupKey fs'.canvases id = some (canvasToJson c') := by
  refine ⟨applyUpdate c now, fs.setCanvas id (canvasToJson (applyUpdate c now)),
    ?_, ?_⟩
  · simp [update_canvas, h]
  · simp [FS.setCanvas, lookupKey_setKey_self]

/-- C10 witness: updating an id with no existing file ("missing" on an
empty store) succeeds and creates the file. -/
theorem update_canvas_upsert_witness :
    lookupKey FS.empty.canvases "missing" = none ∧
    ∃ c' fs',
      update_canvas FS.empty "missing"
          (canvasToJson ⟨"1.0.0", "missing", "Doc", none, "t0", "t0",
            ⟨0, 0, 1920, 1080⟩, Json.arr []⟩) "t1" =
        Except.ok (c', fs') ∧
      lookupKey fs'.canvases "missing" = some (canvasToJson c') := by
  refine ⟨rfl, ?_⟩
  exact update_canvas_upsert FS.empty "missing"
    (canvasToJson ⟨"1.0.0", "missing", "Doc", none, "t0", "t0",
      ⟨0, 0, 1920, 1080⟩, Json.arr []⟩) "t1" _ rfl

/-- C5: `update_tree` followed by `get_tree` returns exactly the supplied
structure, and the stored tree file is the serialization of the supplied
structure alone — a full replace of the previous content, not a merge, so
any node the caller omitted is absent afterwards. -/
theorem update_tree_then_get_tree (fs : FS) (t : TreeStructure) :
    (update_tree fs t).1 = t ∧
    (update_tree fs t).2.tree = some (treeToJson t) ∧
    get_tree (update_tree fs t).2 = Except.ok (t, (update_tree fs t).2) := by
  refine ⟨rfl, rfl, ?_⟩
  simp [update_tree, get_tree, parseTree_treeToJson]

/-- C6: on a storage root where the tree file is absent, `get_tree`
returns the default structure — `rootCanvases = ["main"]` and exactly one
node keyed "main" with name "Main Canvas", empty children and no parent —
and persists that structure to the tree file before returning. -/
theorem get_tree_fresh_default (fs : FS) (h : fs.tree = none) :
    get_tree fs =
      Except.ok (defaultTree, { fs with tree := some (treeToJson defaultTree) }) ∧
    defaultTree.rootCanvases = ["main"] ∧
    defaultTree.canvases = [("main", ⟨"Main Canvas", [], none⟩)] := by
  refine ⟨?_, rfl, rfl⟩
  unfold get_tree
  rw [h]

/-- C6 witness: a fresh storage root. -/
theorem get_tree_fresh_default_witness :
    get_tree FS.empty =
      Except.ok (defaultTree,
        { FS.empty with tree := some (treeToJson defaultTree) }) ∧
    defaultTree.rootCanvases = ["main"] ∧
    defaultTree.canvases = [("main", ⟨"Main Canvas", [], none⟩)] :=
  get_tree_fresh_default FS.empty rfl

/-- C7: for every original filename and byte sequence, `save_image`
returns a record whose filename is the generated base name followed by a
dot and the extension extracted from the original filename ("png" when the
original has none) — in particular it ends in that extension — whose
`size` is the exact byte length of the data and whose `path` is
`/api/images/<generatedName>.<ext>`; the file stored under the images
directory is byte-identical to the input. -/
theorem save_image_spec (fs : FS) (filename : String) (data : List Nat)
    (newBase : String) :
    (save_image fs filename data newBase).1.filename =
      newBase ++ "." ++ (extensionOf filename).getD "png" ∧
    (∃ p, (save_image fs filename data newBase).1.filename =
      p ++ (extensionOf filename).getD "png") ∧
    (save_image fs filename data newBase).1.size = data.length ∧
    (save_image fs filename data newBase).1.path =
      "/api/images/" ++ (save_image fs filename data newBase).1.filename ∧
    (save_image fs filename data newBase).1.originalName = filename ∧
    lookupKey (save_image fs filename data newBase).2.images
      (save_image fs filename data newBase).1.filename = some data := by
  refine ⟨rfl, ⟨newBase ++ ".", rfl⟩, rfl, rfl, rfl, ?_⟩
  simp [save_image, lookupKey_setKey_self]

/-- C8: `delete_canvas` removes the canvas file and returns `true` when
the file exists, and fails with `Canvas not found` when it does not; after
a successful delete, `get_canvas` on the same id fails with
`Canvas not found`. -/
theorem delete_then_get_not_found (fs : FS) (id : String) :
    ((∃ j, lookupKey fs.canvases id = some j) →
      delete_canvas fs id =
        Except.ok (true, { fs with canvases := eraseKey fs.canvases id }) ∧
      lookupKey (eraseKey fs.canvases id) id = none ∧
      ∀ now, get_canvas { fs with canvases := eraseKey fs.canvases id } id now =
        Except.error "Canvas not found") ∧
    (lookupKey fs.canvases id = none →
      delete_canvas fs id = Except.error "Canvas not found") := by
  constructor
  · rintro ⟨j, hj⟩
    refine ⟨?_, lookupKey_eraseKey_self _ _, ?_⟩
    · unfold delete_canvas
      rw [hj]
    · intro now
      unfold get_canvas
      rw [show lookupKey ({ fs with canvases := eraseKey fs.canvases id } :
        FS).canvases id = none from lookupKey_eraseKey_self _ _]
  · intro h
    unfold delete_canvas
    rw [h]

/-- C8 witness: deleting an existing concrete file succeeds, the file is
gone, a subsequent read fails with NotFound; deleting on an empty store
fails with NotFound. -/
theorem delete_then_get_not_found_witness :
    (delete_canvas (FS.mk [("a", Json.null)] [] none) "a" =
        Except.ok (true, { FS.mk [("a", Json.null)] [] none with
          canvases := eraseKey [("a", Json.null)] "a" }) ∧
      lookupKey (eraseKey [("a", Json.null)] "a") "a" = none ∧
      get_canvas { FS.mk [("a", Json.null)] [] none with
          canvases := eraseKey [("a", Json.null)] "a" } "a" "t1" =
        Except.error "Canvas not found") ∧
    delete_canvas FS.empty "b" = Except.error "Canvas not found" := by
  constructor
  · have h := (delete_then_get_not_found (FS.mk [("a", Json.null)] [] none) "a").1
      ⟨Json.null, rfl⟩
    exact ⟨h.1, h.2.1, h.2.2 "t1"⟩
  · exact (delete_then_get_not_found FS.empty "b").2 rfl

end VisionBoard
